import Mathlib

/-!
# Verification of `prog2/analysis.py`

A shallow embedding of the analysis script: it iterates over a fixed grid of
(size, procs) labels, opens `results/n<size>-p<procs>.txt` for each pair,
parses one floating-point number per line, computes the mean and the
population standard deviation with numpy, formats both values in scientific
notation with three fractional digits, and prints a four-line report block
per pair.

Modelling conventions.  Python floats are idealised as real numbers `ℝ`
(decimal literals parse to exact rationals, and statistics are computed with
exact real arithmetic); the single float value `nan`, which `np.mean` and
`np.std` return on an empty array, is modelled by the extra constructor
`PyFloat.nan`.  The filesystem is a function from paths to an optional list
of lines (`none` models a file that is missing or cannot be opened, which in
Python raises `FileNotFoundError`/`OSError`, here `Err.FileAccessError`).
Standard output is modelled as the list of printed lines.  The run aborts at
the first raised error, as the script has no exception handling.
-/

namespace Analysis

/-- `folder="results"` from the script. -/
def folder : String := "results"

/-- `number_sizes=["32", "256K", "1M", "16M"]` from the script. -/
def number_sizes : List String := ["32", "256K", "1M", "16M"]

/-- `n_procs=["1", "2", "4", "8"]` from the script. -/
def n_procs : List String := ["1", "2", "4", "8"]

/-- The nested `for size in number_sizes: for procs in n_procs:` loop visits
exactly this list of pairs, size label outer, procs label inner. -/
def grid : List (String × String) :=
  number_sizes.flatMap fun size => n_procs.map fun procs => (size, procs)

/-- The f-string path `<folder>/n<size>-p<procs>.txt` built at line 10 of the
script. -/
def filePath (size procs : String) : String :=
  folder ++ "/n" ++ size ++ "-p" ++ procs ++ ".txt"

/-- The filesystem seen by the script: a path either yields the list of lines
of an existing readable file, or `none` when opening fails. -/
abbrev FS : Type := String → Option (List String)

/-- The two kinds of exception the script can raise: `open` failing
(`FileAccessError`, carrying the path) and `float(...)` failing
(`ParseError`, carrying the offending raw line). -/
inductive Err : Type where
  | FileAccessError : String → Err
  | ParseError : String → Err
deriving DecidableEq

/-- Whitespace characters removed by Python's `str.strip()` (ASCII subset). -/
def isPySpace (c : Char) : Bool :=
  c = ' ' || c = '\t' || c = '\n' || c = '\x0d' || c = '\x0b' || c = '\x0c'

/-- Python's `line.strip()`: drop leading and trailing whitespace. -/
def pyStrip (s : String) : String :=
  String.mk (((s.data.dropWhile isPySpace).reverse.dropWhile isPySpace).reverse)

/-- Value of a (possibly empty) string of decimal digit characters. -/
def digitsNat (l : List Char) : ℕ :=
  l.foldl (fun acc c => 10 * acc + (c.toNat - 48)) 0

/-- Exponent digits of a float literal: a non-empty all-digit suffix. -/
def expDigits (l : List Char) : Option ℕ :=
  if !l.isEmpty && l.all Char.isDigit then some (digitsNat l) else none

/-- Signed exponent of a float literal, returned as the scale factor
`10 ^ e`. -/
def expNum : List Char → Option ℚ
  | [] => none
  | c :: rest =>
    if c = '+' then (expDigits rest).map fun n => (10 : ℚ) ^ n
    else if c = '-' then (expDigits rest).map fun n => ((10 : ℚ) ^ n)⁻¹
    else (expDigits (c :: rest)).map fun n => (10 : ℚ) ^ n

/-- Optional exponent part (`e`/`E` followed by a signed integer); an empty
remainder means no exponent, i.e. scale factor `1`. -/
def expMul : List Char → Option ℚ
  | [] => some 1
  | c :: rest => if c = 'e' || c = 'E' then expNum rest else none

/-- Unsigned mantissa with optional fraction and optional exponent, following
the decimal grammar accepted by Python's `float` constructor (the special
values `inf`/`nan` and digit-group underscores, which no claim exercises, are
not modelled and are rejected). -/
def parseMantissa (l : List Char) : Option ℚ :=
  let ip := l.takeWhile Char.isDigit
  let rest := l.dropWhile Char.isDigit
  match rest with
  | [] => if ip.isEmpty then none else some (digitsNat ip : ℚ)
  | c :: rest2 =>
    if c = '.' then
      let fp := rest2.takeWhile Char.isDigit
      let rest3 := rest2.dropWhile Char.isDigit
      if ip.isEmpty && fp.isEmpty then none
      else (expMul rest3).map fun m =>
        ((digitsNat ip : ℚ) + (digitsNat fp : ℚ) / 10 ^ fp.length) * m
    else if ip.isEmpty then none
    else (expMul (c :: rest2)).map fun m => (digitsNat ip : ℚ) * m

/-- Python's `float(s)` on an already stripped string: optional sign, then
mantissa.  `none` models a raised `ValueError`. -/
def pyFloatOfString (s : String) : Option ℚ :=
  match s.data with
  | [] => none
  | c :: rest =>
    if c = '+' then parseMantissa rest
    else if c = '-' then (parseMantissa rest).map Neg.neg
    else parseMantissa (c :: rest)

/-- One element of the list comprehension `float(line.strip())`. -/
def parseLine (line : String) : Option ℚ :=
  pyFloatOfString (pyStrip line)

/-- The comprehension `[float(line.strip()) for line in file]`: parses the
lines left to right and raises `ParseError` on the first bad line. -/
def parseLines : List String → Except Err (List ℚ)
  | [] => .ok []
  | line :: rest =>
    match parseLine line with
    | none => .error (.ParseError line)
    | some q =>
      match parseLines rest with
      | .error e => .error e
      | .ok qs => .ok (q :: qs)

/-- Lines 10-11 of the script: open the file at `path` (raising
`FileAccessError` when that fails) and parse every line. -/
def readNumbers (fs : FS) (path : String) : Except Err (List ℚ) :=
  match fs path with
  | none => .error (.FileAccessError path)
  | some lines => parseLines lines

/-- A Python float value: either an (idealised, exact) real number or the
special value `nan`. -/
inductive PyFloat : Type where
  | num : ℝ → PyFloat
  | nan : PyFloat

/-- The parsed sample, converted to idealised real values. -/
noncomputable def toR (l : List ℚ) : List ℝ := l.map fun q => (q : ℝ)

/-- Arithmetic mean of a list of reals (numpy's mean of a non-empty array). -/
noncomputable def meanR (l : List ℝ) : ℝ := l.sum / l.length

/-- `np.mean(numbers)`: the arithmetic mean, or `nan` for an empty array. -/
noncomputable def np_mean (l : List ℝ) : PyFloat :=
  if l = [] then .nan else .num (meanR l)

/-- `np.std(numbers)` with the default `ddof=0`: the square root of the mean
of the squared deviations from the mean, or `nan` for an empty array. -/
noncomputable def np_std (l : List ℝ) : PyFloat :=
  if l = [] then .nan
  else .num (Real.sqrt (meanR (l.map fun v => (v - meanR l) ^ 2)))

/-- Round half to even, the rounding used when formatting a float value in
decimal scientific notation. -/
noncomputable def rhe (x : ℝ) : ℤ :=
  if Int.fract x < 1 / 2 then ⌊x⌋
  else if 1 / 2 < Int.fract x then ⌊x⌋ + 1
  else if 2 ∣ ⌊x⌋ then ⌊x⌋ else ⌊x⌋ + 1

/-- The three fractional digits of the formatted mantissa: `k` is the rounded
mantissa scaled by `1000`, its last three decimal digits are printed. -/
def digits3 (k : ℕ) : String :=
  String.mk [Nat.digitChar (k / 100 % 10), Nat.digitChar (k / 10 % 10),
    Nat.digitChar (k % 10)]

/-- The exponent field of `"{:.3e}".format`: an explicit sign followed by at
least two digits. -/
def expStr (e : ℤ) : String :=
  (if e < 0 then "-" else "+") ++
    (if e.natAbs < 10 then "0" ++ Nat.repr e.natAbs else Nat.repr e.natAbs)

/-- `"{:.3e}".format(x)` for a finite value `x`, idealised over `ℝ`: sign,
one leading mantissa digit, exactly three fractional digits (round half to
even), `e`, signed two-digit-minimum exponent.  The mantissa `|x| / 10 ^ e`
lies in `[1, 10)` for `e = Int.log 10 |x|`; if rounding carries it to
`10.000` the exponent is bumped instead. -/
noncomputable def sciFormat3R (x : ℝ) : String :=
  if x = 0 then "0.000e+00"
  else
    let s := if x < 0 then "-" else ""
    let e := Int.log 10 |x|
    let m := rhe (|x| / (10 : ℝ) ^ e * 1000)
    let me : ℤ × ℤ := if m < 10000 then (m, e) else (1000, e + 1)
    let n := me.1.toNat
    s ++ Nat.repr (n / 1000) ++ "." ++ digits3 (n % 1000) ++ "e" ++ expStr me.2

/-- Formatting a Python float: `nan` prints as `"nan"`, finite values in
scientific notation. -/
noncomputable def format3e : PyFloat → String
  | .nan => "nan"
  | .num x => sciFormat3R x

/-- The four lines printed for one `(size, procs)` pair (lines 24-27 of the
script); the final `print()` contributes the empty line. -/
noncomputable def block (size procs : String) (nums : List ℚ) : List String :=
  ["Numbers: " ++ size ++ " - Processes: " ++ procs,
   "Average: " ++ format3e (np_mean (toR nums)),
   "Standard Deviation: " ++ format3e (np_std (toR nums)),
   ""]

/-- The report block a pair contributes when its file reads and parses
successfully, and nothing otherwise. -/
noncomputable def blockFor (fs : FS) (sp : String × String) : List String :=
  match readNumbers fs (filePath sp.1 sp.2) with
  | .ok ns => block sp.1 sp.2 ns
  | .error _ => []

/-- The loop body over a remaining list of pairs: returns the lines printed
and, when a pair raises, the error that aborted the run. -/
noncomputable def runPairs (fs : FS) : List (String × String) → List String × Option Err
  | [] => ([], none)
  | sp :: rest =>
    match readNumbers fs (filePath sp.1 sp.2) with
    | .error e => ([], some e)
    | .ok ns =>
      let r := runPairs fs rest
      (block sp.1 sp.2 ns ++ r.1, r.2)

/-- The whole script: run the loop body over the full grid. -/
noncomputable def run (fs : FS) : List String × Option Err := runPairs fs grid

/-- The mean exactly as the spec states it: `(Σ vi) / N`. -/
noncomputable def spec_mean (l : List ℝ) : ℝ := l.sum / l.length

/-- The standard deviation exactly as the spec states it:
`sqrt ((Σ (vi − mean)²) / N)` with divisor `N` (population formula). -/
noncomputable def spec_std (l : List ℝ) : ℝ :=
  Real.sqrt ((l.map fun v => (v - spec_mean l) ^ 2).sum / l.length)

/-- Example filesystem: only `results/n32-p1.txt` exists, with one value. -/
def fsMissing : FS := fun path =>
  if path = "results/n32-p1.txt" then some ["5.0"] else none

/-- Example filesystem: `results/n32-p1.txt` holds an unparseable line. -/
def fsBadLine : FS := fun path =>
  if path = "results/n32-p1.txt" then some ["abc"] else none

/-- Example filesystem: every path holds the single line `5.0`. -/
def fsAllFives : FS := fun _ => some ["5.0"]

/-- Example filesystem: `results/n32-p1.txt` exists but is empty, every other
path holds the single line `5.0`. -/
def fsEmptyFirst : FS := fun path =>
  if path = "results/n32-p1.txt" then some [] else some ["5.0"]

/-- Example filesystem: exactly the sixteen grid paths exist, each with the
single line `5.0`. -/
def fsGridOnly : FS := fun path =>
  if path ∈ grid.map (fun sp => filePath sp.1 sp.2) then some ["5.0"] else none

end Analysis

namespace Analysis

/-- Prepending the empty string is the identity. -/
theorem empty_append_str (s : String) : "" ++ s = s := by
  cases s
  rfl

/-- The line `1.0` parses to the value 1. -/
theorem parseLine_one : parseLine "1.0" = some 1 := by
  simp [parseLine, pyStrip, pyFloatOfString, parseMantissa, expMul, expNum,
    expDigits, digitsNat, isPySpace, List.dropWhile, List.takeWhile]

/-- The line `2.0` parses to the value 2. -/
theorem parseLine_two : parseLine "2.0" = some 2 := by
  simp [parseLine, pyStrip, pyFloatOfString, parseMantissa, expMul, expNum,
    expDigits, digitsNat, isPySpace, List.dropWhile, List.takeWhile]

/-- The line `3.0` parses to the value 3. -/
theorem parseLine_three : parseLine "3.0" = some 3 := by
  simp [parseLine, pyStrip, pyFloatOfString, parseMantissa, expMul, expNum,
    expDigits, digitsNat, isPySpace, List.dropWhile, List.takeWhile]

/-- The line `5.0` parses to the value 5. -/
theorem parseLine_five : parseLine "5.0" = some 5 := by
  simp [parseLine, pyStrip, pyFloatOfString, parseMantissa, expMul, expNum,
    expDigits, digitsNat, isPySpace, List.dropWhile, List.takeWhile]

/-- The line `abc` does not parse as a float. -/
theorem parseLine_abc : parseLine "abc" = none := by
  simp [parseLine, pyStrip, pyFloatOfString, parseMantissa, expMul, expNum,
    expDigits, digitsNat, isPySpace, List.dropWhile, List.takeWhile]

/-- An empty line does not parse as a float. -/
theorem parseLine_empty : parseLine "" = none := by
  simp [parseLine, pyStrip, pyFloatOfString, parseMantissa, expMul, expNum,
    expDigits, digitsNat, isPySpace, List.dropWhile, List.takeWhile]

/-- C2: the loop nest visits the full Cartesian product of the two label
lists, size label outer and procs label inner: the pair built from the `i`-th
size label and the `k`-th procs label sits at grid position
`i * n_procs.length + k`, every pair of an earlier size label precedes every
pair of a later one, and within one size label the declared procs order is
preserved. -/
theorem c2_grid_cartesian_order :
    ∀ i j k l : ℕ, i < number_sizes.length → j < number_sizes.length →
      k < n_procs.length → l < n_procs.length →
      (∀ si pk, number_sizes.get? i = some si → n_procs.get? k = some pk →
        grid.get? (i * n_procs.length + k) = some (si, pk)) ∧
      (i < j → i * n_procs.length + k < j * n_procs.length + l) ∧
      (i = j → k < l → i * n_procs.length + k < j * n_procs.length + l) := by
  intro i j k l hi hj hk hl
  have hL : n_procs.length = 4 := rfl
  have hS : number_sizes.length = 4 := rfl
  rw [hS] at hi hj
  rw [hL] at hk hl
  refine ⟨?_, ?_, ?_⟩
  · intro si pk hsi hpk
    rw [hL]
    interval_cases i <;> interval_cases k <;>
      simp_all [number_sizes, n_procs, grid]
  · intro hij
    rw [hL]
    omega
  · intro hij hkl
    rw [hL]
    omega

/-- Witness for C2 at `i = 0, j = 1, k = 1, l = 0`: the pair of the first
size label and second procs label sits at position 1 and precedes position 4,
where the second size label starts. -/
theorem c2_grid_cartesian_order_witness :
    grid.get? (0 * n_procs.length + 1) = some ("32", "2") ∧
    0 * n_procs.length + 1 < 1 * n_procs.length + 0 := by
  have h := c2_grid_cartesian_order 0 1 1 0 (by decide) (by decide) (by decide) (by decide)
  exact ⟨h.1 "32" "2" (by decide) (by decide), h.2.1 (by decide)⟩

/-- C6: the path opened for a pair is exactly `<folder>/n<size>-p<procs>.txt`
with the folder constant `results`; over the declared label lists the grid
addresses exactly these sixteen pairwise-distinct files. -/
theorem c6_file_paths :
    (∀ size procs : String, filePath size procs =
      folder ++ "/n" ++ size ++ "-p" ++ procs ++ ".txt") ∧
    folder = "results" ∧
    grid.map (fun sp => filePath sp.1 sp.2) =
      ["results/n32-p1.txt", "results/n32-p2.txt",
       "results/n32-p4.txt", "results/n32-p8.txt",
       "results/n256K-p1.txt", "results/n256K-p2.txt",
       "results/n256K-p4.txt", "results/n256K-p8.txt",
       "results/n1M-p1.txt", "results/n1M-p2.txt",
       "results/n1M-p4.txt", "results/n1M-p8.txt",
       "results/n16M-p1.txt", "results/n16M-p2.txt",
       "results/n16M-p4.txt", "results/n16M-p8.txt"] ∧
    (grid.map (fun sp => filePath sp.1 sp.2)).Nodup ∧
    (grid.map (fun sp => filePath sp.1 sp.2)).length = 16 := by
  exact ⟨fun _ _ => rfl, rfl, by decide, by decide, by decide⟩

end Analysis

namespace Analysis

/-- Uniqueness of the decimal exponent: if `10 ^ e ≤ x < 10 ^ (e + 1)` then
`Int.log 10 x = e`. -/
theorem intLog_eq (x : ℝ) (e : ℤ) (hx : 0 < x)
    (h1 : (10 : ℝ) ^ e ≤ x) (h2 : x < (10 : ℝ) ^ (e + 1)) : Int.log 10 x = e := by
  have hb : (1 : ℕ) < 10 := by norm_num
  have ha : ((10 : ℕ) : ℝ) ^ Int.log 10 x ≤ x := Int.zpow_log_le_self hb hx
  have hc : x < ((10 : ℕ) : ℝ) ^ (Int.log 10 x + 1) := Int.lt_zpow_succ_log_self hb x
  push_cast at ha hc
  by_contra hne
  rcases lt_or_gt_of_ne hne with hlt | hgt
  · have h3 : Int.log 10 x + 1 ≤ e := by omega
    have h4 := zpow_le_zpow_right₀ (by norm_num : (1 : ℝ) ≤ 10) h3
    linarith
  · have h3 : e + 1 ≤ Int.log 10 x := by omega
    have h4 := zpow_le_zpow_right₀ (by norm_num : (1 : ℝ) ≤ 10) h3
    linarith

/-- Rounding a value that is exactly an integer is the identity. -/
theorem rhe_intCast (n : ℤ) : rhe (n : ℝ) = n := by
  norm_num [rhe, Int.fract_intCast, Int.floor_intCast]

/-- A value strictly between `n + 1/2` and `n + 1` rounds up to `n + 1`. -/
theorem rhe_up (x : ℝ) (n : ℤ) (h1 : (n : ℝ) + 1 / 2 < x) (h2 : x < (n : ℝ) + 1) :
    rhe x = n + 1 := by
  have hf : ⌊x⌋ = n := by
    rw [Int.floor_eq_iff]
    refine ⟨by linarith, by linarith⟩
  have hfr : Int.fract x = x - n := by rw [Int.fract, hf]
  rw [rhe, hfr, hf, if_neg (by linarith), if_pos (by linarith)]

/-- Evaluation of the scientific format at a positive value with known
decimal exponent `e` and known rounded scaled mantissa `n < 10000`. -/
theorem sciFormat3R_of_pos (x : ℝ) (e : ℤ) (n : ℕ) (hx : 0 < x)
    (h1 : (10 : ℝ) ^ e ≤ x) (h2 : x < (10 : ℝ) ^ (e + 1))
    (hn : rhe (x / (10 : ℝ) ^ e * 1000) = (n : ℤ)) (hlt : n < 10000) :
    sciFormat3R x =
      Nat.repr (n / 1000) ++ "." ++ digits3 (n % 1000) ++ "e" ++ expStr e := by
  have hx0 : x ≠ 0 := ne_of_gt hx
  have habs : |x| = x := abs_of_pos hx
  have hnlt : (n : ℤ) < 10000 := by exact_mod_cast hlt
  rw [sciFormat3R, if_neg hx0]
  simp only [habs, if_neg (not_lt.mpr hx.le), intLog_eq x e hx h1 h2, hn,
    if_pos hnlt, Int.toNat_natCast]
  rw [empty_append_str]

/-- The format of a negative value is a minus sign followed by the format of
its absolute value. -/
theorem sciFormat3R_neg_of (x : ℝ) (hx : 0 < x) :
    sciFormat3R (-x) = "-" ++ sciFormat3R x := by
  have hne : -x ≠ 0 := by intro h; apply ne_of_gt hx; linarith
  rw [sciFormat3R, sciFormat3R, if_neg hne, if_neg (ne_of_gt hx)]
  simp only [abs_neg, abs_of_pos hx, if_pos (by linarith : -x < 0),
    if_neg (not_lt.mpr hx.le)]
  rw [empty_append_str]
  simp [String.append_assoc]

/-- Zero formats as `0.000e+00`. -/
theorem sciFormat3R_zero : sciFormat3R 0 = "0.000e+00" := by
  rw [sciFormat3R, if_pos rfl]

/-- `100000.0` formats as `1.000e+05`. -/
theorem sciFormat3R_100000 : sciFormat3R 100000 = "1.000e+05" := by
  have harg : (100000 : ℝ) / (10 : ℝ) ^ (5 : ℤ) * 1000 = ((1000 : ℤ) : ℝ) := by
    norm_num
  have h := sciFormat3R_of_pos 100000 5 1000 (by norm_num) (by norm_num)
    (by norm_num) (by rw [harg, rhe_intCast]; norm_num) (by norm_num)
  rw [h]
  rfl

/-- `2.0` formats as `2.000e+00`. -/
theorem sciFormat3R_two : sciFormat3R 2 = "2.000e+00" := by
  have harg : (2 : ℝ) / (10 : ℝ) ^ (0 : ℤ) * 1000 = ((2000 : ℤ) : ℝ) := by
    norm_num
  have h := sciFormat3R_of_pos 2 0 2000 (by norm_num) (by norm_num)
    (by norm_num) (by rw [harg, rhe_intCast]; norm_num) (by norm_num)
  rw [h]
  rfl

/-- `5.0` formats as `5.000e+00`. -/
theorem sciFormat3R_five : sciFormat3R 5 = "5.000e+00" := by
  have harg : (5 : ℝ) / (10 : ℝ) ^ (0 : ℤ) * 1000 = ((5000 : ℤ) : ℝ) := by
    norm_num
  have h := sciFormat3R_of_pos 5 0 5000 (by norm_num) (by norm_num)
    (by norm_num) (by rw [harg, rhe_intCast]; norm_num) (by norm_num)
  rw [h]
  rfl

/-- `-0.0005` formats as `-5.000e-04`. -/
theorem sciFormat3R_neg_milli : sciFormat3R (-0.0005) = "-5.000e-04" := by
  have hval : (-0.0005 : ℝ) = -(1 / 2000) := by norm_num
  have harg : (1 / 2000 : ℝ) / (10 : ℝ) ^ (-4 : ℤ) * 1000 = ((5000 : ℤ) : ℝ) := by
    norm_num
  have h := sciFormat3R_of_pos (1 / 2000) (-4) 5000 (by norm_num) (by norm_num)
    (by norm_num) (by rw [harg, rhe_intCast]; norm_num) (by norm_num)
  rw [hval, sciFormat3R_neg_of (1 / 2000) (by norm_num), h]
  rfl

/-- `sqrt (2/3)` (the population standard deviation of `[1, 2, 3]`) formats
as `8.165e-01`. -/
theorem sciFormat3R_sqrt_two_thirds :
    sciFormat3R (Real.sqrt (2 / 3)) = "8.165e-01" := by
  have hx : 0 < Real.sqrt (2 / 3) := Real.sqrt_pos.mpr (by norm_num)
  have hl : (0.81645 : ℝ) < Real.sqrt (2 / 3) :=
    (Real.lt_sqrt (by norm_num)).mpr (by norm_num)
  have hu : Real.sqrt (2 / 3) < 0.8165 :=
    (Real.sqrt_lt' (by norm_num)).mpr (by norm_num)
  have harg : Real.sqrt (2 / 3) / (10 : ℝ) ^ (-1 : ℤ) * 1000 =
      10000 * Real.sqrt (2 / 3) := by
    rw [zpow_neg, zpow_one]
    ring
  have hn : rhe (Real.sqrt (2 / 3) / (10 : ℝ) ^ (-1 : ℤ) * 1000) =
      ((8165 : ℕ) : ℤ) := by
    rw [harg]
    have h := rhe_up (10000 * Real.sqrt (2 / 3)) 8164
      (by push_cast; nlinarith) (by push_cast; nlinarith)
    rw [h]
    norm_num
  have h1 : (10 : ℝ) ^ (-1 : ℤ) ≤ Real.sqrt (2 / 3) := by
    rw [zpow_neg, zpow_one]
    nlinarith
  have h2 : Real.sqrt (2 / 3) < (10 : ℝ) ^ ((-1 : ℤ) + 1) := by
    have he : ((-1 : ℤ) + 1) = 0 := by norm_num
    rw [he, zpow_zero]
    linarith
  have h := sciFormat3R_of_pos (Real.sqrt (2 / 3)) (-1) 8165 hx h1 h2 hn
    (by norm_num)
  rw [h]
  rfl

end Analysis

namespace Analysis

/-- When every pair's file reads and parses successfully, the loop prints the
concatenation of all report blocks and raises nothing. -/
theorem runPairs_ok (fs : FS) : ∀ l : List (String × String),
    (∀ sp ∈ l, ∃ ns, readNumbers fs (filePath sp.1 sp.2) = .ok ns) →
    runPairs fs l = (l.flatMap (blockFor fs), none) := by
  intro l
  induction l with
  | nil => intro _; rfl
  | cons hd tl ih =>
    intro h
    obtain ⟨ns, hns⟩ := h hd (by simp)
    simp only [runPairs, hns]
    rw [ih (fun sp hsp => h sp (by simp [hsp]))]
    simp [List.flatMap_cons, blockFor, hns]

/-- When the pair at position `i` raises and all earlier pairs succeed, the
loop prints exactly the blocks of the earlier pairs and aborts with that
error. -/
theorem runPairs_fail (fs : FS) : ∀ (l : List (String × String)) (i : ℕ)
    (sp : String × String) (e : Err),
    l.get? i = some sp →
    readNumbers fs (filePath sp.1 sp.2) = .error e →
    (∀ j, j < i → ∀ sp2, l.get? j = some sp2 →
      ∃ ns, readNumbers fs (filePath sp2.1 sp2.2) = .ok ns) →
    runPairs fs l = ((l.take i).flatMap (blockFor fs), some e) := by
  intro l
  induction l with
  | nil => intro i sp e h _ _; simp at h
  | cons hd tl ih =>
    intro i sp e hget hfail hok
    cases i with
    | zero =>
      simp at hget
      subst hget
      simp only [runPairs, hfail]
      simp
    | succ i =>
      obtain ⟨ns, hns⟩ := hok 0 (Nat.succ_pos i) hd (by simp)
      simp only [runPairs, hns]
      rw [ih i sp e (by simpa using hget) hfail ?_]
      · simp [blockFor, hns]
      · intro j hj sp2 hsp2
        exact hok (j + 1) (by omega) sp2 (by simpa using hsp2)

/-- If some line of a file fails to parse, reading the file raises a
`ParseError` carrying (the first) such line. -/
theorem parseLines_first_bad : ∀ lines : List String,
    (∃ l ∈ lines, parseLine l = none) →
    ∃ bad ∈ lines, parseLine bad = none ∧
      parseLines lines = .error (.ParseError bad) := by
  intro lines
  induction lines with
  | nil => rintro ⟨l, hl, _⟩; simp at hl
  | cons hd tl ih =>
    rintro ⟨l, hl, hnone⟩
    cases hpl : parseLine hd with
    | none =>
      exact ⟨hd, by simp, hpl, by simp [parseLines, hpl]⟩
    | some q =>
      have hl' : l ∈ tl := by
        rcases List.mem_cons.mp hl with h | h
        · subst h; simp [hpl] at hnone
        · exact h
      obtain ⟨bad, hbad, hbn, hpe⟩ := ih ⟨l, hl', hnone⟩
      exact ⟨bad, by simp [hbad], hbn, by simp [parseLines, hpl, hpe]⟩

/-- The loop's behaviour depends only on the filesystem's answers at the
paths of the visited pairs. -/
theorem runPairs_congr (fs1 fs2 : FS) : ∀ l : List (String × String),
    (∀ sp ∈ l, fs1 (filePath sp.1 sp.2) = fs2 (filePath sp.1 sp.2)) →
    runPairs fs1 l = runPairs fs2 l := by
  intro l
  induction l with
  | nil => intro _; rfl
  | cons hd tl ih =>
    intro h
    have hhd := h hd (by simp)
    have h2 : readNumbers fs2 (filePath hd.1 hd.2) =
        readNumbers fs1 (filePath hd.1 hd.2) := by
      rw [readNumbers, readNumbers, hhd]
    simp only [runPairs, h2, ih (fun sp hsp => h sp (by simp [hsp]))]

end Analysis

namespace Analysis

/-- The sample `[1, 2, 3]` as real values. -/
theorem toR_one_two_three : toR [1, 2, 3] = [(1 : ℝ), 2, 3] := by
  simp [toR]

/-- The sample `[5]` as real values. -/
theorem toR_five : toR [5] = [(5 : ℝ)] := by
  simp [toR]

/-- `np.mean([1.0, 2.0, 3.0])` is 2. -/
theorem np_mean_one_two_three : np_mean [(1 : ℝ), 2, 3] = .num 2 := by
  rw [np_mean, if_neg (by simp)]
  have hm : meanR [(1 : ℝ), 2, 3] = 2 := by
    simp [meanR]
    norm_num
  rw [hm]

/-- `np.std([1.0, 2.0, 3.0])` is `sqrt (2/3)` (population formula). -/
theorem np_std_one_two_three :
    np_std [(1 : ℝ), 2, 3] = .num (Real.sqrt (2 / 3)) := by
  have hm : meanR [(1 : ℝ), 2, 3] = 2 := by
    simp [meanR]
    norm_num
  rw [np_std, if_neg (by simp)]
  simp only [hm]
  have hmap : ([(1 : ℝ), 2, 3].map fun v => (v - 2) ^ 2) = [1, 0, 1] := by
    simp
    norm_num
  rw [hmap]
  have h2 : meanR [(1 : ℝ), 0, 1] = 2 / 3 := by
    simp [meanR]
    norm_num
  rw [h2]

/-- `np.mean([5.0])` is 5. -/
theorem np_mean_five : np_mean [(5 : ℝ)] = .num 5 := by
  rw [np_mean, if_neg (by simp)]
  have hm : meanR [(5 : ℝ)] = 5 := by
    simp [meanR]
  rw [hm]

/-- `np.std([5.0])` is 0 (zero variance for a single value). -/
theorem np_std_five : np_std [(5 : ℝ)] = .num 0 := by
  have hm : meanR [(5 : ℝ)] = 5 := by
    simp [meanR]
  rw [np_std, if_neg (by simp)]
  simp only [hm]
  have hmap : ([(5 : ℝ)].map fun v => (v - 5) ^ 2) = [0] := by
    simp
  rw [hmap]
  have h2 : meanR [(0 : ℝ)] = 0 := by
    simp [meanR]
  rw [h2, Real.sqrt_zero]

/-- The file lines `1.0`, `2.0`, `3.0` parse to the sample `[1, 2, 3]`. -/
theorem parseLines_sample : parseLines ["1.0", "2.0", "3.0"] = .ok [1, 2, 3] := by
  simp [parseLines, parseLine_one, parseLine_two, parseLine_three]

/-- The single file line `5.0` parses to the sample `[5]`. -/
theorem parseLines_single_five : parseLines ["5.0"] = .ok [5] := by
  simp [parseLines, parseLine_five]

/-- A file whose line is `abc` raises `ParseError` on reading. -/
theorem parseLines_abc : parseLines ["abc"] = .error (.ParseError "abc") := by
  simp [parseLines, parseLine_abc]

end Analysis

namespace Analysis

/-- C1: for every non-empty sample the computed mean is `(Σ vi) / N` and the
computed standard deviation is `sqrt ((Σ (vi − mean)²) / N)` — the population
formula with divisor `N`, not `N − 1`. -/
theorem c1_population_statistics :
    ∀ l : List ℝ, l ≠ [] →
      np_mean l = PyFloat.num (spec_mean l) ∧
      np_std l = PyFloat.num (spec_std l) := by
  intro l h
  constructor
  · rw [np_mean, if_neg h]
    rfl
  · rw [np_std, if_neg h, spec_std, meanR, List.length_map]
    rfl

/-- Witness for C1 at the concrete sample `[1, 2, 3]`. -/
theorem c1_population_statistics_witness :
    ([(1 : ℝ), 2, 3] ≠ []) ∧
    (np_mean [(1 : ℝ), 2, 3] = PyFloat.num (spec_mean [(1 : ℝ), 2, 3]) ∧
     np_std [(1 : ℝ), 2, 3] = PyFloat.num (spec_std [(1 : ℝ), 2, 3])) :=
  ⟨by simp, c1_population_statistics [(1 : ℝ), 2, 3] (by simp)⟩

/-- C3: every finite value formats in scientific notation with exactly three
digit characters after the decimal point, whatever its magnitude, and the
three concrete values of the claim render as `1.000e+05`, `0.000e+00` and
`-5.000e-04`. -/
theorem c3_scientific_format :
    (∀ x : ℝ, ∃ (sgn ipart : String) (d1 d2 d3 : Char) (epart : String),
      format3e (.num x) =
        sgn ++ ipart ++ "." ++ String.mk [d1, d2, d3] ++ "e" ++ epart ∧
      d1.isDigit = true ∧ d2.isDigit = true ∧ d3.isDigit = true) ∧
    format3e (.num 100000) = "1.000e+05" ∧
    format3e (.num 0) = "0.000e+00" ∧
    format3e (.num (-0.0005)) = "-5.000e-04" := by
  refine ⟨?_, sciFormat3R_100000, sciFormat3R_zero, sciFormat3R_neg_milli⟩
  intro x
  by_cases hx : x = 0
  · subst hx
    refine ⟨"", "0", '0', '0', '0', "+00", ?_, by decide, by decide, by decide⟩
    show sciFormat3R 0 = _
    rw [sciFormat3R_zero]
    decide
  · have hd : ∀ m : ℕ, m < 10 → (Nat.digitChar m).isDigit = true := by decide
    have hfmt : format3e (.num x) = sciFormat3R x := rfl
    rw [hfmt, sciFormat3R, if_neg hx]
    exact ⟨_, _, _, _, _, _, rfl, hd _ (Nat.mod_lt _ (by norm_num)),
      hd _ (Nat.mod_lt _ (by norm_num)), hd _ (Nat.mod_lt _ (by norm_num))⟩

/-- C8: lines `1.0`, `2.0`, `3.0` give the sample `[1, 2, 3]` with printed
mean `2.000e+00` and printed standard deviation `8.165e-01` (namely
`sqrt (2/3)`); the single line `5.0` gives printed mean `5.000e+00` and
printed standard deviation `0.000e+00`. -/
theorem c8_scenarios :
    parseLines ["1.0", "2.0", "3.0"] = .ok [1, 2, 3] ∧
    format3e (np_mean (toR [1, 2, 3])) = "2.000e+00" ∧
    format3e (np_std (toR [1, 2, 3])) = "8.165e-01" ∧
    parseLines ["5.0"] = .ok [5] ∧
    format3e (np_mean (toR [5])) = "5.000e+00" ∧
    format3e (np_std (toR [5])) = "0.000e+00" := by
  refine ⟨parseLines_sample, ?_, ?_, parseLines_single_five, ?_, ?_⟩
  · rw [toR_one_two_three, np_mean_one_two_three]
    exact sciFormat3R_two
  · rw [toR_one_two_three, np_std_one_two_three]
    exact sciFormat3R_sqrt_two_thirds
  · rw [toR_five, np_mean_five]
    exact sciFormat3R_five
  · rw [toR_five, np_std_five]
    exact sciFormat3R_zero

end Analysis

namespace Analysis

/-- C4: when the file of the pair at grid position `i` cannot be opened (and
every earlier pair succeeded), the run aborts with a `FileAccessError` for
that path: the output holds only the blocks of the earlier pairs — nothing
for the failing pair and nothing for any later pair. -/
theorem c4_missing_file_aborts :
    ∀ (fs : FS) (i : ℕ) (s p : String),
      grid.get? i = some (s, p) →
      fs (filePath s p) = none →
      (∀ j, j < i → ∀ sp, grid.get? j = some sp →
        ∃ ns, readNumbers fs (filePath sp.1 sp.2) = .ok ns) →
      run fs = ((grid.take i).flatMap (blockFor fs),
        some (Err.FileAccessError (filePath s p))) := by
  intro fs i s p hget hnone hok
  have hfail : readNumbers fs (filePath s p) =
      .error (.FileAccessError (filePath s p)) := by
    rw [readNumbers, hnone]
  exact runPairs_fail fs grid i (s, p) _ hget hfail hok

/-- Witness for C4: with only `results/n32-p1.txt` present, the run prints
the first pair's block only and aborts with a `FileAccessError` for
`results/n32-p2.txt`. -/
theorem c4_missing_file_aborts_witness :
    grid.get? 1 = some ("32", "2") ∧
    fsMissing (filePath "32" "2") = none ∧
    run fsMissing = ((grid.take 1).flatMap (blockFor fsMissing),
      some (Err.FileAccessError (filePath "32" "2"))) := by
  refine ⟨by decide, by decide,
    c4_missing_file_aborts fsMissing 1 "32" "2" (by decide) (by decide) ?_⟩
  intro j hj sp hsp
  have hj0 : j = 0 := by omega
  subst hj0
  have h0 : grid.get? 0 = some ("32", "1") := by decide
  rw [h0] at hsp
  injection hsp with hsp
  subst hsp
  refine ⟨[5], ?_⟩
  have hfsv : fsMissing (filePath ("32", "1").1 ("32", "1").2) = some ["5.0"] := by
    decide
  rw [readNumbers, hfsv]
  exact parseLines_single_five

/-- C5: when some stripped line of the file of the pair at grid position `i`
does not parse as a float (and every earlier pair succeeded), the run aborts
with a `ParseError` before printing anything for that pair: the output holds
only the blocks of the earlier pairs. -/
theorem c5_bad_line_aborts :
    ∀ (fs : FS) (i : ℕ) (s p : String) (lines : List String),
      grid.get? i = some (s, p) →
      fs (filePath s p) = some lines →
      (∃ line ∈ lines, parseLine line = none) →
      (∀ j, j < i → ∀ sp, grid.get? j = some sp →
        ∃ ns, readNumbers fs (filePath sp.1 sp.2) = .ok ns) →
      ∃ bad ∈ lines, parseLine bad = none ∧
        run fs = ((grid.take i).flatMap (blockFor fs),
          some (Err.ParseError bad)) := by
  intro fs i s p lines hget hsome hbad hok
  obtain ⟨bad, hmem, hbn, hpe⟩ := parseLines_first_bad lines hbad
  refine ⟨bad, hmem, hbn, ?_⟩
  have hfail : readNumbers fs (filePath s p) = .error (.ParseError bad) := by
    rw [readNumbers, hsome]
    exact hpe
  exact runPairs_fail fs grid i (s, p) _ hget hfail hok

/-- Witness for C5: a first file containing the line `abc` makes the run
abort immediately with a `ParseError`, printing nothing. -/
theorem c5_bad_line_aborts_witness :
    ∃ bad ∈ ["abc"], parseLine bad = none ∧
      run fsBadLine = ((grid.take 0).flatMap (blockFor fsBadLine),
        some (Err.ParseError bad)) := by
  exact c5_bad_line_aborts fsBadLine 0 "32" "1" ["abc"] (by decide) (by decide)
    ⟨"abc", by simp, parseLine_abc⟩
    (fun j hj => absurd hj (Nat.not_lt_zero j))

/-- C7: on a fully successful run nothing is raised and the output is the
concatenation, in grid order, of one four-line block per pair: the header
line, the `Average:` line, the `Standard Deviation:` line, and a blank
separator line. -/
theorem c7_report_blocks :
    ∀ fs : FS,
      (∀ sp ∈ grid, ∃ ns, readNumbers fs (filePath sp.1 sp.2) = .ok ns) →
      (run fs).2 = none ∧
      (run fs).1 = grid.flatMap (blockFor fs) ∧
      ∀ sp ns, readNumbers fs (filePath sp.1 sp.2) = .ok ns →
        blockFor fs sp =
          ["Numbers: " ++ sp.1 ++ " - Processes: " ++ sp.2,
           "Average: " ++ format3e (np_mean (toR ns)),
           "Standard Deviation: " ++ format3e (np_std (toR ns)),
           ""] := by
  intro fs h
  have hr := runPairs_ok fs grid h
  refine ⟨by rw [run, hr], by rw [run, hr], ?_⟩
  intro sp ns hns
  simp only [blockFor, hns]
  rfl

/-- Witness for C7 on the filesystem where every file holds `5.0`. -/
theorem c7_report_blocks_witness :
    (∀ sp ∈ grid, ∃ ns, readNumbers fsAllFives (filePath sp.1 sp.2) = .ok ns) ∧
    (run fsAllFives).2 = none ∧
    (run fsAllFives).1 = grid.flatMap (blockFor fsAllFives) := by
  have h : ∀ sp ∈ grid, ∃ ns, readNumbers fsAllFives (filePath sp.1 sp.2) = .ok ns :=
    fun sp _ => ⟨[5], parseLines_single_five⟩
  have hc := c7_report_blocks fsAllFives h
  exact ⟨h, hc.1, hc.2.1⟩

/-- C9: an existing empty file raises neither error kind: its pair reads the
empty sample, both statistics are `nan`, its four-line block is still
printed with `nan` in place of the formatted numbers, and (when the rest of
the grid succeeds) the run completes normally. -/
theorem c9_empty_file_nan :
    ∀ (fs : FS) (i : ℕ) (s p : String),
      grid.get? i = some (s, p) →
      fs (filePath s p) = some [] →
      (∀ sp ∈ grid, ∃ ns, readNumbers fs (filePath sp.1 sp.2) = .ok ns) →
      readNumbers fs (filePath s p) = .ok [] ∧
      np_mean (toR []) = PyFloat.nan ∧
      np_std (toR []) = PyFloat.nan ∧
      blockFor fs (s, p) =
        ["Numbers: " ++ s ++ " - Processes: " ++ p,
         "Average: nan", "Standard Deviation: nan", ""] ∧
      run fs = (grid.flatMap (blockFor fs), none) := by
  intro fs i s p hget hsome hok
  have hread : readNumbers fs (filePath s p) = .ok [] := by
    rw [readNumbers, hsome]
    rfl
  have hm : format3e (np_mean (toR [])) = "nan" := rfl
  have hs : format3e (np_std (toR [])) = "nan" := rfl
  refine ⟨hread, rfl, rfl, ?_, ?_⟩
  · simp only [blockFor, hread, block, hm, hs]
    rfl
  · rw [run, runPairs_ok fs grid hok]

/-- Witness for C9: `results/n32-p1.txt` empty, all other files `5.0`. -/
theorem c9_empty_file_nan_witness :
    grid.get? 0 = some ("32", "1") ∧
    fsEmptyFirst (filePath "32" "1") = some [] ∧
    np_mean (toR []) = PyFloat.nan ∧
    blockFor fsEmptyFirst ("32", "1") =
      ["Numbers: " ++ "32" ++ " - Processes: " ++ "1",
       "Average: nan", "Standard Deviation: nan", ""] ∧
    run fsEmptyFirst = (grid.flatMap (blockFor fsEmptyFirst), none) := by
  have hok : ∀ sp ∈ grid, ∃ ns,
      readNumbers fsEmptyFirst (filePath sp.1 sp.2) = .ok ns := by
    intro sp _
    by_cases hp : filePath sp.1 sp.2 = "results/n32-p1.txt"
    · refine ⟨[], ?_⟩
      rw [readNumbers]
      simp [fsEmptyFirst, hp, parseLines]
    · refine ⟨[5], ?_⟩
      rw [readNumbers]
      simp [fsEmptyFirst, hp, parseLines_single_five]
  have h := c9_empty_file_nan fsEmptyFirst 0 "32" "1" (by decide) (by decide) hok
  exact ⟨by decide, by decide, h.2.1, h.2.2.2.1, h.2.2.2.2⟩

/-- C10: the run is deterministic — two filesystems that agree on the
contents of every addressed grid file produce identical output and identical
error behaviour; nothing else (no CLI, environment, time or randomness
exists in the model) influences the result. -/
theorem c10_deterministic :
    ∀ fs1 fs2 : FS,
      (∀ sp ∈ grid, fs1 (filePath sp.1 sp.2) = fs2 (filePath sp.1 sp.2)) →
      run fs1 = run fs2 := by
  intro fs1 fs2 h
  exact runPairs_congr fs1 fs2 grid h

/-- Witness for C10: a filesystem answering `5.0` everywhere and one
answering `5.0` exactly on the sixteen grid paths give identical runs. -/
theorem c10_deterministic_witness :
    (∀ sp ∈ grid, fsAllFives (filePath sp.1 sp.2) = fsGridOnly (filePath sp.1 sp.2)) ∧
    run fsAllFives = run fsGridOnly := by
  have h : ∀ sp ∈ grid,
      fsAllFives (filePath sp.1 sp.2) = fsGridOnly (filePath sp.1 sp.2) := by
    decide
  exact ⟨h, c10_deterministic fsAllFives fsGridOnly h⟩

end Analysis
